import Mathlib

/-
Shallow embedding of the capability-delegation and mutable-pointer core of
the IPFS-AI-Context-Flow repository (src/src/lib/ucan.ts, storacha.ts,
runtime.ts, errors.ts).  Machine integers are modelled as Nat/Int with
explicit wrap-around where it matters; fallible code returns Except;
ambient time (Date.now) is passed explicitly; the external Storacha client
and w3name library are modelled as per-attempt outcome functions.
-/

-- ───────────────────────── string / byte utilities ─────────────────────────

/-- Checks whether the first character list is a prefix of the second. -/
def charsStartWith : List Char → List Char → Bool
  | [], _ => true
  | _ :: _, [] => false
  | p :: ps, c :: cs => p == c && charsStartWith ps cs

/-- Checks whether the pattern occurs as a contiguous substring. -/
def charsContain (pat : List Char) : List Char → Bool
  | [] => pat.isEmpty
  | c :: cs => charsStartWith pat (c :: cs) || charsContain pat cs

/-- Model of JavaScript `message.includes('missing current space')`
(storacha.ts, withRetry and uploadMemory). -/
def msgHasMissingSpace (m : String) : Bool :=
  charsContain "missing current space".data m.data

/-- Bytes of a string in UTF-8, as natural numbers (model of Node's Buffer
view of a string passed to crypto.createHash('sha256').update). -/
def strBytes (s : String) : List Nat :=
  s.toUTF8.toList.map (fun b => b.toNat)

-- ───────────────────────── SHA-256 (crypto.createHash('sha256')) ───────────

/-- Truncation to 32 bits. -/
def w32 (n : Nat) : Nat := n % 4294967296

/-- Rotate right on 32 bits (x assumed < 2^32). -/
def rotr32 (x n : Nat) : Nat := w32 ((x >>> n) ||| (x <<< (32 - n)))

/-- The SHA-256 choose function, in its XOR-reduced form. -/
def sha256Ch (e f g : Nat) : Nat := g ^^^ (e &&& (f ^^^ g))

/-- The SHA-256 majority function, in its XOR-reduced form. -/
def sha256Maj (a b c : Nat) : Nat := (a &&& b) ^^^ (c &&& (a ^^^ b))

def bigSigma0 (x : Nat) : Nat := rotr32 x 2 ^^^ rotr32 x 13 ^^^ rotr32 x 22

def bigSigma1 (x : Nat) : Nat := rotr32 x 6 ^^^ rotr32 x 11 ^^^ rotr32 x 25

def smallSigma0 (x : Nat) : Nat := rotr32 x 7 ^^^ rotr32 x 18 ^^^ (x >>> 3)

def smallSigma1 (x : Nat) : Nat := rotr32 x 17 ^^^ rotr32 x 19 ^^^ (x >>> 10)

/-- The first 64 primes, from which FIPS 180-4 derives its constants. -/
def primes64 : List Nat :=
  [2, 3, 5, 7, 11, 13, 17, 19, 23, 29, 31, 37, 41, 43, 47, 53,
   59, 61, 67, 71, 73, 79, 83, 89, 97, 101, 103, 107, 109, 113, 127, 131,
   137, 139, 149, 151, 157, 163, 167, 173, 179, 181, 191, 193, 197, 199, 211, 223,
   227, 229, 233, 239, 241, 251, 257, 263, 269, 271, 277, 281, 283, 293, 307, 311]

/-- Bisection step for the integer cube root. -/
def cbrtGo (n : Nat) : Nat → Nat → Nat → Nat
  | 0, lo, _ => lo
  | fuel + 1, lo, hi =>
    if lo < hi then
      let mid := (lo + hi + 1) / 2
      if mid * mid * mid ≤ n then cbrtGo n fuel mid hi else cbrtGo n fuel lo (mid - 1)
    else lo

/-- The 32 fractional bits of the cube root of a small prime
(this is how FIPS 180-4 defines the 64 round constants). -/
def fracCbrtWord (p : Nat) : Nat := cbrtGo (p <<< 96) 64 0 (1 <<< 36) % 4294967296

/-- The 32 fractional bits of the square root of a small prime
(this is how FIPS 180-4 defines the initial hash state). -/
def fracSqrtWord (p : Nat) : Nat := Nat.sqrt (p <<< 64) % 4294967296

/-- The 64 SHA-256 round constants. -/
def sha256K : List Nat := primes64.map fracCbrtWord

/-- The SHA-256 initial hash state. -/
def sha256H0 : List Nat := (primes64.take 8).map fracSqrtWord

/-- Big-endian 8-byte encoding of a length-in-bits value. -/
def bigEndian8 (n : Nat) : List Nat :=
  (List.range 8).map (fun i => (n >>> (56 - 8 * i)) % 256)

/-- SHA-256 message padding over bytes. -/
def sha256Pad (m : List Nat) : List Nat :=
  let L := m.length
  let z := (120 - ((L + 1) % 64)) % 64
  m ++ [128] ++ List.replicate z 0 ++ bigEndian8 (8 * L)

/-- Split a byte list into 64-byte blocks. -/
def toBlocks : List Nat → List (List Nat)
  | [] => []
  | b :: bs => (b :: bs).take 64 :: toBlocks ((b :: bs).drop 64)
termination_by l => l.length
decreasing_by simp_all [List.length_drop]; omega

/-- First 16 message-schedule words of a 64-byte block (big-endian). -/
def blockWords (block : List Nat) : Array Nat :=
  (List.range 16).foldl
    (fun a i =>
      a.push (((block.getD (4 * i) 0 * 256 + block.getD (4 * i + 1) 0) * 256
          + block.getD (4 * i + 2) 0) * 256 + block.getD (4 * i + 3) 0))
    #[]

/-- Extend the 16-word schedule to 64 words. -/
def extendWords (ws : Array Nat) : Array Nat :=
  (List.range 48).foldl
    (fun w j =>
      let i := j + 16
      w.push (w32 (smallSigma1 (w.getD (i - 2) 0) + w.getD (i - 7) 0
          + smallSigma0 (w.getD (i - 15) 0) + w.getD (i - 16) 0)))
    ws

/-- One SHA-256 compression over a 64-byte block. -/
def sha256Block (hs : List Nat) (block : List Nat) : List Nat :=
  let w := extendWords (blockWords block)
  let st := (List.range 64).foldl
    (fun (s : Nat × Nat × Nat × Nat × Nat × Nat × Nat × Nat) i =>
      let (a, b, c, d, e, f, g, h) := s
      let t1 := w32 (h + bigSigma1 e + sha256Ch e f g + sha256K.getD i 0 + w.getD i 0)
      let t2 := w32 (bigSigma0 a + sha256Maj a b c)
      (w32 (t1 + t2), a, b, c, w32 (d + t1), e, f, g))
    (hs.getD 0 0, hs.getD 1 0, hs.getD 2 0, hs.getD 3 0,
     hs.getD 4 0, hs.getD 5 0, hs.getD 6 0, hs.getD 7 0)
  let (a, b, c, d, e, f, g, h) := st
  [w32 (hs.getD 0 0 + a), w32 (hs.getD 1 0 + b), w32 (hs.getD 2 0 + c),
   w32 (hs.getD 3 0 + d), w32 (hs.getD 4 0 + e), w32 (hs.getD 5 0 + f),
   w32 (hs.getD 6 0 + g), w32 (hs.getD 7 0 + h)]

/-- SHA-256 digest of a byte list, as a natural number below 2^256. -/
def sha256Nat (msg : List Nat) : Nat :=
  ((toBlocks (sha256Pad msg)).foldl sha256Block sha256H0).foldl
    (fun acc x => acc * 4294967296 + x) 0

/-- SHA-256 digest as an element of the finite type of 256-bit values
(the output of crypto.createHash('sha256').digest() is exactly 32 bytes). -/
def sha256 (msg : List Nat) : Fin (2 ^ 256) :=
  ⟨sha256Nat msg % 2 ^ 256, Nat.mod_lt _ (by positivity)⟩

/-- Lower-case hex digit. -/
def hexDigitChar (n : Nat) : Char := "0123456789abcdef".data.getD n '0'

/-- First 32 characters of the 64-character big-endian hex rendering of a
digest — model of .digest('hex').slice(0, 32) in storacha.ts. -/
def hexTop32 (d : Fin (2 ^ 256)) : String :=
  String.mk ((List.range 32).map (fun i => hexDigitChar ((d.val >>> (4 * (63 - i))) % 16)))

-- ───────────────────────── error model (src/src/lib/errors.ts) ─────────────

/-- The error classes of errors.ts, plus `generic` for a plain JavaScript
Error (thrown directly by the source in a few places and by external
libraries).  instanceof tests in the source branch on exactly these
classes. -/
inductive ErrKind
  | generic
  | validation
  | authentication
  | network
  | storage
  | concurrency
deriving DecidableEq, Repr

/-- A thrown error: its class and its message string. -/
structure Err where
  kind : ErrKind
  message : String
deriving DecidableEq, Repr

-- ───────────────────── delegation model (src/src/lib/ucan.ts) ──────────────

/-- One entry of a UCAN delegation's capabilities array:
`{ with: ..., can: ... }` (`with` is a Lean keyword, rendered `with_`). -/
structure Capability where
  can : String
  with_ : String
deriving DecidableEq, Repr

/-- A UCAN delegation as verifyDelegation consumes it.  `expiration` is
`none` when the field is absent; JavaScript truthiness makes both an
absent field and the number 0 skip the expiration check.  `sigValid`
records whether the token's cryptographic signature is valid; the source's
verifyDelegation never inspects the signature, which the model makes
visible by never reading this field. -/
structure Delegation where
  issuerDid : String
  audienceDid : String
  capabilities : List Capability
  expiration : Option Int
  sigValid : Bool
deriving DecidableEq, Repr

/-- The reason attached to a failed verification (the source formats these
as message strings; the model keeps the discriminating tag). -/
inductive VerifyReason
  | issuerMismatch
  | missingCapability
  | scopeMismatch
  | expired
deriving DecidableEq, Repr

/-- Return shape of verifyDelegation: `{ valid, reason? }`. -/
structure VerifyResult where
  valid : Bool
  reason : Option VerifyReason
deriving DecidableEq, Repr

/-- UcanService.verifyDelegation (ucan.ts lines 197–241), check for check:
issuer equality, capability lookup via Array.find, resource-scope
equality, then the truthiness-guarded expiration comparison against
`now = Math.floor(Date.now() / 1000)` (passed explicitly here). -/
def verifyDelegation (delegation : Delegation) (expectedIssuerDid expectedAbility : String)
    (now : Int) : VerifyResult :=
  if delegation.issuerDid ≠ expectedIssuerDid then
    ⟨false, some .issuerMismatch⟩
  else
    match delegation.capabilities.find? (fun c => c.can == expectedAbility) with
    | none => ⟨false, some .missingCapability⟩
    | some cap =>
      if cap.with_ ≠ expectedIssuerDid then
        ⟨false, some .scopeMismatch⟩
      else
        match delegation.expiration with
        | none => ⟨true, none⟩
        | some exp =>
          if exp = 0 then ⟨true, none⟩
          else if now > exp then ⟨false, some .expired⟩
          else ⟨true, none⟩

/-- UcanService.issueDelegation (ucan.ts lines 158–183).  The zod guards:
abilitySchema = z.string().min(1) and z.number().positive() on
expirationHours; the `typeof issuer?.did` / `typeof audience?.did` guards
always pass for the well-formed identities modelled here, so only the two
data guards appear.  On success, delegate(...) signs a token whose single
capability is `{ with: issuer.did(), can: ability }` and whose expiration
is `now + 60 * 60 * expirationHours`. -/
def issueDelegation (issuerDid audienceDid ability : String) (expirationHours : Int)
    (now : Int) : Except Err Delegation :=
  if ability.length < 1 then
    .error ⟨.validation, "Invalid UCAN delegation parameters"⟩
  else if expirationHours ≤ 0 then
    .error ⟨.validation, "Invalid UCAN delegation parameters"⟩
  else
    .ok { issuerDid := issuerDid
          audienceDid := audienceDid
          capabilities := [⟨ability, issuerDid⟩]
          expiration := some (now + 60 * 60 * expirationHours)
          sigValid := true }

-- ───────────────── identity derivation (ucan.ts lines 143–148) ─────────────

/-- An Ed25519 signer as far as this core observes it: the key material it
was derived from (32 bytes = one element of the finite 256-bit space) and
the did:key identifier computed from it. -/
structure Signer where
  keyMaterial : Fin (2 ^ 256)
deriving DecidableEq

/-- The did:key identifier of a signer (model of signer.did(); derived
from the key material by a fixed encoding). -/
def Signer.did (s : Signer) : String :=
  "did:key:z" ++ hexTop32 s.keyMaterial

/-- UcanService.createIdentityFromSeed (ucan.ts lines 143–148): hash the
seed string with SHA-256 and hand the 32-byte digest to Signer.derive. -/
def createIdentityFromSeed (seed : String) : Signer :=
  ⟨sha256 (strBytes seed)⟩

-- ───────────────────────── JSON payload model ──────────────────────────────

/-- A JSON value, as the memory payloads the runtime stores and fetches. -/
inductive Json
  | null
  | bool (b : Bool)
  | num (n : Int)
  | str (s : String)
  | arr (items : List Json)
  | obj (fields : List (String × Json))

mutual

/-- Structural size of a JSON value (used to separate a wrapper object
from the value it contains). -/
def jsize : Json → Nat
  | .null => 1
  | .bool _ => 1
  | .num _ => 1
  | .str _ => 1
  | .arr items => 1 + jsizeArr items
  | .obj fields => 1 + jsizeObj fields

def jsizeArr : List Json → Nat
  | [] => 0
  | x :: t => 1 + jsize x + jsizeArr t

def jsizeObj : List (String × Json) → Nat
  | [] => 0
  | (_, v) :: t => 1 + jsize v + jsizeObj t

end

/-- Minimal JSON escaping of a string body (backslash and quote). -/
def jsonEscape (s : String) : String :=
  String.mk (s.data.foldr
    (fun c acc => if c = '"' ∨ c = '\\' then '\\' :: c :: acc else c :: acc) [])

mutual

/-- Model of JSON.stringify on the payloads the source serializes before
hashing or persisting them. -/
def jsonStringify : Json → String
  | .null => "null"
  | .bool true => "true"
  | .bool false => "false"
  | .num n => toString n
  | .str s => "\"" ++ jsonEscape s ++ "\""
  | .arr items => "[" ++ jsonStringifyArr items ++ "]"
  | .obj fields => "\x7b" ++ jsonStringifyObj fields ++ "\x7d"

def jsonStringifyArr : List Json → String
  | [] => ""
  | [x] => jsonStringify x
  | x :: y :: t => jsonStringify x ++ "," ++ jsonStringifyArr (y :: t)

def jsonStringifyObj : List (String × Json) → String
  | [] => ""
  | [(k, v)] => "\"" ++ jsonEscape k ++ "\":" ++ jsonStringify v
  | (k, v) :: p :: t =>
      "\"" ++ jsonEscape k ++ "\":" ++ jsonStringify v ++ "," ++ jsonStringifyObj (p :: t)

end

-- ──────────────── retry policy and content store (storacha.ts) ─────────────

/-- The local fallback cache (.agent_storage files keyed by mock CID),
newest write first; fs.writeFile overwrites an existing entry, and a
lookup sees the newest write. -/
def Cache : Type := List (String × Json)

/-- Read a cache entry (model of reading `${cid}.json` and JSON.parse). -/
def cacheLookup (cache : Cache) (cid : String) : Option Json :=
  (List.find? (fun kv => kv.1 == cid) cache).map (fun kv => kv.2)

/-- Write a cache entry (model of fs.writeFile of `${cid}.json`). -/
def cacheInsert (cache : Cache) (cid : String) (v : Json) : Cache :=
  (cid, v) :: cache

/-- Loop body of StorachaService.withRetry (storacha.ts lines 25–45).  The
external operation is modelled per attempt: `op n` is the outcome of the
n-th call.  The fuel argument equals maxRetries − attempt on every
reachable call, so the structural recursion reproduces the while loop
exactly, including the unreachable terminal NetworkError. -/
def withRetryGo {α : Type} (op : Nat → Except Err α) (maxRetries : Nat) :
    Nat → Nat → Except Err α
  | 0, _ => .error ⟨.network, "IPFS Operation failed permanently"⟩
  | fuel + 1, attempt =>
    if attempt < maxRetries then
      match op attempt with
      | .ok v => .ok v
      | .error e =>
        if msgHasMissingSpace e.message then .error e
        else if maxRetries ≤ attempt + 1 then
          .error ⟨.network, "IPFS operation failed after " ++ toString maxRetries
              ++ " attempts: " ++ e.message⟩
        else withRetryGo op maxRetries fuel (attempt + 1)
    else .error ⟨.network, "IPFS Operation failed permanently"⟩

/-- StorachaService.withRetry with its default maxRetries = 3. -/
def withRetry {α : Type} (op : Nat → Except Err α) (maxRetries : Nat := 3) :
    Except Err α :=
  withRetryGo op maxRetries maxRetries 0

/-- The deterministic mock CID of the local fallback (storacha.ts lines
66–68): 'bafybeis1m' followed by the first 32 hex characters of the
SHA-256 digest of JSON.stringify(memory). -/
def mkMockCid (memory : Json) : String :=
  "bafybeis1m" ++ hexTop32 (sha256 (strBytes (jsonStringify memory)))

/-- StorachaService.uploadMemory (storacha.ts lines 52–79).  `store n` is
the outcome of the n-th attempt of the client upload closure.  A
'missing current space' failure escapes withRetry unretried and triggers
the deterministic local fallback; a NetworkError is rethrown as is; any
other escaping failure is wrapped in a NetworkError. -/
def uploadMemory (store : Nat → Except Err String) (memory : Json) (cache : Cache) :
    Except Err String × Cache :=
  match withRetry store 3 with
  | .ok cid => (.ok cid, cache)
  | .error e =>
    if msgHasMissingSpace e.message then
      let mockCid := mkMockCid memory
      (.ok mockCid, cacheInsert cache mockCid memory)
    else if e.kind = .network then (.error e, cache)
    else (.error ⟨.network, "Failed to upload to IPFS: " ++ e.message⟩, cache)

/-- An IPNS revision as published by w3name (sequence number and value). -/
structure Revision where
  seq : Nat
  value : String
deriving DecidableEq, Repr

/-- StorachaService.publishToIpns (storacha.ts lines 204–216): the whole
increment/v0-and-publish body runs inside withRetry; `op n` is the outcome
of its n-th attempt. -/
def publishToIpns (op : Nat → Except Err Revision) : Except Err Revision :=
  withRetry op 3

-- ───────────────────── runtime orchestration (runtime.ts) ──────────────────

/-- The mutable fields of an AgentRuntime instance that these operations
read or write. -/
structure RState where
  did : String
  memoryCids : List String
  ipnsName : Option String
  ipnsRevision : Option Revision
  cache : Cache

/-- The wrapper record storePublicMemory builds around the caller's
context (runtime.ts lines 94–98). -/
def wrapContext (did timestamp : String) (context : Json) : Json :=
  .obj [("agent_id", .str did), ("timestamp", .str timestamp), ("context", context)]

/-- The body of AgentRuntime.storePublicMemory after schema validation:
wrap the context with agent_id and timestamp, upload; a ValidationError is
rethrown as is, everything else is wrapped in a StorageError. -/
def storePublicMemoryRest (store : Nat → Except Err String) (nowIso : String)
    (st : RState) (context : Json) : Except Err (String × RState) :=
  match uploadMemory store (wrapContext st.did nowIso context) st.cache with
  | (.ok cid, cache2) =>
      .ok (cid, { st with cache := cache2, memoryCids := st.memoryCids ++ [cid] })
  | (.error e, _) =>
      if e.kind = .validation then .error e
      else .error ⟨.storage, "Failed to store public memory: " ++ e.message⟩

/-- AgentRuntime.storePublicMemory (runtime.ts lines 85–107): optional
schema validation, then the store body above. -/
def storePublicMemory (store : Nat → Except Err String) (schema : Option (Json → Bool))
    (nowIso : String) (st : RState) (context : Json) : Except Err (String × RState) :=
  match schema with
  | some p =>
    if p context then
      storePublicMemoryRest store nowIso st context
    else .error ⟨.validation, "Memory payload failed validation"⟩
  | none => storePublicMemoryRest store nowIso st context

/-- AgentRuntime.retrievePublicMemory (runtime.ts lines 117–144).  If a
delegation is supplied it is verified for 'agent/read' against its own
issuer before any fetch; a failed verification throws an
AuthenticationError.  The second component counts how many fetches against
the content store were performed.  `fetch` models
StorachaService.fetchMemory, which returns null on failure. -/
def retrieveFetchStep (fetch : String → Option Json) (cid : String) :
    Except Err Json × Nat :=
  match fetch cid with
  | some data => (.ok data, 1)
  | none => (.error ⟨.storage, "Memory CID not found: " ++ cid⟩, 1)

/-- The delegation gate and fetch of AgentRuntime.retrievePublicMemory. -/
def retrievePublicMemory (fetch : String → Option Json) (cid : String)
    (delegation : Option Delegation) (now : Int) : Except Err Json × Nat :=
  match delegation with
  | some d =>
    let expectedIssuer := d.issuerDid
    let verification := verifyDelegation d expectedIssuer "agent/read" now
    if verification.valid then retrieveFetchStep fetch cid
    else (.error ⟨.authentication, "Authorization denied"⟩, 0)
  | none => retrieveFetchStep fetch cid

/-- The store-then-publish tail of AgentRuntime.updateMemoryStream,
running on the state after the revision sync. -/
def updateMemoryStreamTail (store : Nat → Except Err String)
    (publishOp : Nat → Except Err Revision) (nowIso : String) (st1 : RState)
    (newContext : Json) : Except Err (String × RState) :=
  match storePublicMemory store none nowIso st1 newContext with
  | .error e => .error e
  | .ok (newCid, st2) =>
    match publishToIpns publishOp with
    | .error e => .error e
    | .ok rev => .ok (newCid, { st2 with ipnsRevision := some rev })

/-- AgentRuntime.updateMemoryStream (runtime.ts lines 270–286): a plain
untyped Error when no stream was started; otherwise sync the latest
revision (`latest` models getLatestRevision's answer), store the new
context as public memory, then publish the new CID to IPNS. -/
def updateMemoryStream (store : Nat → Except Err String)
    (publishOp : Nat → Except Err Revision) (latest : Option Revision)
    (nowIso : String) (st : RState) (newContext : Json) :
    Except Err (String × RState) :=
  match st.ipnsName with
  | none =>
    .error ⟨.generic,
      "Cannot update memory stream: No stream started. Call startMemoryStream() first."⟩
  | some _ =>
    match latest with
    | some r => updateMemoryStreamTail store publishOp nowIso
        { st with ipnsRevision := some r } newContext
    | none => updateMemoryStreamTail store publishOp nowIso st newContext

-- ───────────────────────── helper lemmas ───────────────────────────────────

/-- A string of length < 1 is the empty string. -/
theorem string_empty_of_length_lt_one (s : String) (h : s.length < 1) : s = "" := by
  cases s with
  | mk data =>
    cases data with
    | nil => rfl
    | cons c t => simp [String.length] at h

-- ───────────────────────── C1 ──────────────────────────────────────────────

/-- Claim C1 (amended): verifyDelegation performs its checks in the order
issuer equality (reason issuer mismatch), capability lookup (reason
missing capability), resource scope (reason scope mismatch), expiration
(reason expired, skipped when the field is falsy); the first failing check
short-circuits with its reason, and the result is valid exactly when every
check passes — but no signature-validity check is performed. -/
theorem verifyDelegation_check_order (d : Delegation) (i a : String) (now : Int) :
    (d.issuerDid ≠ i → verifyDelegation d i a now = ⟨false, some .issuerMismatch⟩)
  ∧ (d.issuerDid = i → d.capabilities.find? (fun c => c.can == a) = none →
      verifyDelegation d i a now = ⟨false, some .missingCapability⟩)
  ∧ (∀ cap, d.issuerDid = i → d.capabilities.find? (fun c => c.can == a) = some cap →
      cap.with_ ≠ i → verifyDelegation d i a now = ⟨false, some .scopeMismatch⟩)
  ∧ (∀ cap exp, d.issuerDid = i → d.capabilities.find? (fun c => c.can == a) = some cap →
      cap.with_ = i → d.expiration = some exp → exp ≠ 0 → now > exp →
      verifyDelegation d i a now = ⟨false, some .expired⟩)
  ∧ ((verifyDelegation d i a now).valid = true ↔
      d.issuerDid = i ∧ ∃ cap, d.capabilities.find? (fun c => c.can == a) = some cap ∧
        cap.with_ = i ∧ ∀ exp, d.expiration = some exp → exp ≠ 0 → now ≤ exp) := by
  refine ⟨?_, ?_, ?_, ?_, ?_⟩
  · intro h1
    simp [verifyDelegation, h1]
  · intro h1 h2
    simp [verifyDelegation, h1, h2]
  · intro cap h1 h2 h3
    simp [verifyDelegation, h1, h2, h3]
  · intro cap exp h1 h2 h3 h4 h5 h6
    simp [verifyDelegation, h1, h2, h3, h4, h5, h6]
  · by_cases h1 : d.issuerDid = i
    · cases hf : d.capabilities.find? (fun c => c.can == a) with
      | none => simp [verifyDelegation, h1, hf]
      | some cap =>
        by_cases h3 : cap.with_ = i
        · cases he : d.expiration with
          | none => simp [verifyDelegation, h1, hf, h3, he]
          | some exp =>
            by_cases h0 : exp = 0
            · simp [verifyDelegation, h1, hf, h3, he, h0]
            · by_cases hn : now > exp
              · simp [verifyDelegation, h1, hf, h3, he, h0, hn]
              · simp [verifyDelegation, h1, hf, h3, he, h0, hn]
                omega
        · simp [verifyDelegation, h1, hf, h3]
    · simp [verifyDelegation, h1]

/-- Witness for verifyDelegation_check_order at a concrete mismatching
issuer. -/
theorem verifyDelegation_check_order_witness :
    verifyDelegation ⟨"did:key:zA", "did:key:zB", [], none, true⟩
      "did:key:zC" "agent/read" 0 = ⟨false, some .issuerMismatch⟩ :=
  (verifyDelegation_check_order ⟨"did:key:zA", "did:key:zB", [], none, true⟩
    "did:key:zC" "agent/read" 0).1 (by decide)

/-- A token whose signature is invalid but whose issuer, capability, scope
and expiration data all match. -/
def sigInvalidToken : Delegation :=
  ⟨"did:key:zIss", "did:key:zAud", [⟨"agent/read", "did:key:zIss"⟩], none, false⟩

/-- Counterexample to claim C1 as stated: verifyDelegation reports this
token fully valid even though its signature is invalid, so no
signature-validity check (1) is performed or reported. -/
theorem verifyDelegation_no_signature_check :
    sigInvalidToken.sigValid = false ∧
    verifyDelegation sigInvalidToken "did:key:zIss" "agent/read" 1700000000 =
      ⟨true, none⟩ := by
  constructor
  · rfl
  · decide

-- ───────────────────────── C9 ──────────────────────────────────────────────

/-- Claim C9: when the token's expiration field is absent or equal to 0,
verifyDelegation skips the expiration check entirely: a token passing the
issuer, capability and scope checks is reported valid at every point in
time. -/
theorem verifyDelegation_falsy_expiration_never_expires (d : Delegation)
    (i a : String) (now : Int) (cap : Capability)
    (hexp : d.expiration = none ∨ d.expiration = some 0)
    (h1 : d.issuerDid = i)
    (hf : d.capabilities.find? (fun c => c.can == a) = some cap)
    (h3 : cap.with_ = i) :
    verifyDelegation d i a now = ⟨true, none⟩ := by
  rcases hexp with h | h <;> simp [verifyDelegation, h1, hf, h3, h]

/-- Witness for verifyDelegation_falsy_expiration_never_expires: a token
with expiration 0 is valid at a far-future time. -/
theorem verifyDelegation_falsy_expiration_witness :
    verifyDelegation ⟨"did:key:zI", "did:key:zB", [⟨"agent/read", "did:key:zI"⟩], some 0, true⟩
      "did:key:zI" "agent/read" 99999999999 = ⟨true, none⟩ :=
  verifyDelegation_falsy_expiration_never_expires _ _ _ _ ⟨"agent/read", "did:key:zI"⟩
    (Or.inr rfl) rfl (by decide) rfl

-- ───────────────────────── C3 ──────────────────────────────────────────────

/-- Claim C3: for every issuer, audience, non-empty capability and positive
TTL, the token produced by issueDelegation verifies as valid against the
issuer's own identifier and the same capability. -/
theorem issue_then_verify_valid (issuerDid audienceDid ability : String)
    (ttlHours now : Int) (hab : ability ≠ "") (httl : 0 < ttlHours) :
    ∃ d, issueDelegation issuerDid audienceDid ability ttlHours now = .ok d ∧
      verifyDelegation d issuerDid ability now = ⟨true, none⟩ := by
  have hlen : ¬ ability.length < 1 := by
    intro hlt
    exact hab (string_empty_of_length_lt_one ability hlt)
  refine ⟨⟨issuerDid, audienceDid, [⟨ability, issuerDid⟩],
      some (now + 60 * 60 * ttlHours), true⟩, ?_, ?_⟩
  · have h2 : ¬ ttlHours ≤ 0 := by omega
    simp [issueDelegation, hlen, h2]
  · by_cases hz : now + 60 * 60 * ttlHours = 0
    · simp [verifyDelegation, hz]
      omega
    · simp [verifyDelegation, hz]
      omega

/-- Witness for issue_then_verify_valid at concrete identities and TTL. -/
theorem issue_then_verify_valid_witness :
    ∃ d, issueDelegation "did:key:zA" "did:key:zB" "agent/read" 1 1700000000 = .ok d ∧
      verifyDelegation d "did:key:zA" "agent/read" 1700000000 = ⟨true, none⟩ :=
  issue_then_verify_valid "did:key:zA" "did:key:zB" "agent/read" 1 1700000000
    (by decide) (by decide)

-- ───────────────────────── C4 ──────────────────────────────────────────────

/-- Claim C4: issueDelegation fails with a ValidationError exactly when the
capability string is empty or the TTL is nonpositive; on success the
produced token's resource scope (the `with` field of its only capability)
equals the issuer's identifier and its expiration is now plus the TTL in
seconds (60 * 60 * ttlHours). -/
theorem issue_validation_iff (issuerDid audienceDid ability : String)
    (ttlHours now : Int) :
    ((∃ e, issueDelegation issuerDid audienceDid ability ttlHours now = .error e ∧
        e.kind = .validation) ↔ (ability = "" ∨ ttlHours ≤ 0))
  ∧ (∀ d, issueDelegation issuerDid audienceDid ability ttlHours now = .ok d →
      d.capabilities.map (fun c => c.with_) = [issuerDid] ∧
      d.expiration = some (now + 60 * 60 * ttlHours)) := by
  constructor
  · by_cases hab : ability.length < 1
    · have he : ability = "" := string_empty_of_length_lt_one ability hab
      simp [issueDelegation, hab, he]
    · by_cases httl : ttlHours ≤ 0
      · simp [issueDelegation, hab, httl]
      · have hne : ¬ ability = "" := by
          intro he
          subst he
          simp at hab
        simp [issueDelegation, hab, httl, hne]
  · intro d hd
    by_cases hab : ability.length < 1
    · simp [issueDelegation, hab] at hd
    · by_cases httl : ttlHours ≤ 0
      · simp [issueDelegation, hab, httl] at hd
      · simp [issueDelegation, hab, httl] at hd
        subst hd
        simp

/-- Witness for issue_validation_iff: at an empty capability the failure
side of the equivalence holds concretely. -/
theorem issue_validation_iff_witness :
    (∃ e, issueDelegation "did:key:zA" "did:key:zB" "" 1 1700000000 = .error e ∧
      e.kind = .validation) :=
  (issue_validation_iff "did:key:zA" "did:key:zB" "" 1 1700000000).1.mpr (Or.inl rfl)

-- ───────────────────────── C6 ──────────────────────────────────────────────

/-- Claim C6 (amended): createIdentityFromSeed is a pure function of the
seed — identical seeds yield identical signers and identical identifiers,
across any two invocations; indeed the signer and identifier depend only
on the SHA-256 digest of the seed, so distinctness of identifiers holds
exactly as far as the digests are distinct, not universally. -/
theorem createIdentityFromSeed_deterministic :
    (∀ s1 s2 : String, s1 = s2 →
      createIdentityFromSeed s1 = createIdentityFromSeed s2 ∧
      (createIdentityFromSeed s1).did = (createIdentityFromSeed s2).did)
  ∧ (∀ s1 s2 : String, sha256 (strBytes s1) = sha256 (strBytes s2) →
      (createIdentityFromSeed s1).did = (createIdentityFromSeed s2).did) := by
  constructor
  · intro s1 s2 h
    subst h
    exact ⟨rfl, rfl⟩
  · intro s1 s2 h
    simp [createIdentityFromSeed, Signer.did, h]

/-- Witness for createIdentityFromSeed_deterministic at a concrete seed. -/
theorem createIdentityFromSeed_deterministic_witness :
    createIdentityFromSeed "agent-seed-alpha" = createIdentityFromSeed "agent-seed-alpha" ∧
    (createIdentityFromSeed "agent-seed-alpha").did =
      (createIdentityFromSeed "agent-seed-alpha").did :=
  createIdentityFromSeed_deterministic.1 "agent-seed-alpha" "agent-seed-alpha" rfl

/-- The n-th seed string in an infinite family of pairwise distinct seeds. -/
def seedOfNat (n : Nat) : String := String.mk (List.replicate n 'a')

/-- The seed family is injective. -/
theorem seedOfNat_injective : Function.Injective seedOfNat := by
  intro a b h
  have hd : List.replicate a 'a' = List.replicate b 'a' := congrArg String.data h
  have := congrArg List.length hd
  simpa using this

/-- Counterexample to claim C6 as stated: it is not the case that any two
different seeds derive different identifiers.  Identifiers are a function
of the 256-bit SHA-256 digest of the seed, a finite space, while seeds
range over infinitely many strings, so two distinct seeds with the same
identifier must exist. -/
theorem createIdentityFromSeed_not_injective :
    ¬ (∀ s1 s2 : String, s1 ≠ s2 →
        (createIdentityFromSeed s1).did ≠ (createIdentityFromSeed s2).did) := by
  intro H
  obtain ⟨a, b, hne, heq⟩ :=
    Finite.exists_ne_map_eq_of_infinite (fun n : ℕ => sha256 (strBytes (seedOfNat n)))
  have hseed : seedOfNat a ≠ seedOfNat b := fun h => hne (seedOfNat_injective h)
  have hdid : (createIdentityFromSeed (seedOfNat a)).did =
      (createIdentityFromSeed (seedOfNat b)).did := by
    simp [createIdentityFromSeed, Signer.did, heq]
  exact H (seedOfNat a) (seedOfNat b) hseed hdid

-- ───────────────────────── C7 ──────────────────────────────────────────────

/-- Claim C7: when a delegation is supplied, retrievePublicMemory verifies
it for capability 'agent/read' scoped to the delegation's own issuer
before fetching; a failed verification aborts with an AuthenticationError
and performs zero fetches against the content store. -/
theorem retrievePublicMemory_auth_gate (fetch : String → Option Json) (cid : String)
    (d : Delegation) (now : Int)
    (hv : (verifyDelegation d d.issuerDid "agent/read" now).valid = false) :
    retrievePublicMemory fetch cid (some d) now =
      (.error ⟨.authentication, "Authorization denied"⟩, 0) := by
  simp [retrievePublicMemory, hv]

/-- Witness for retrievePublicMemory_auth_gate: a delegation without the
read capability is rejected with no fetch, for any store contents. -/
theorem retrievePublicMemory_auth_gate_witness :
    retrievePublicMemory (fun _ => some (Json.str "secret")) "bafyCid"
      (some ⟨"did:key:zI", "did:key:zB", [], none, true⟩) 0 =
      (.error ⟨.authentication, "Authorization denied"⟩, 0) :=
  retrievePublicMemory_auth_gate (fun _ => some (Json.str "secret")) "bafyCid"
    ⟨"did:key:zI", "did:key:zB", [], none, true⟩ 0 (by decide)

-- ───────────────────────── C2 ──────────────────────────────────────────────

/-- A publish operation that reports a revision conflict on every attempt
(the message records which attempt was asked). -/
def conflictPublishOp : Nat → Except Err Revision :=
  fun n => .error ⟨.generic, "revision conflict at attempt " ++ toString n⟩

/-- Counterexample to claim C2 as stated: when publish reports a
conflicting revision, publishToIpns auto-retries it (the surfaced message
names attempt 2, so attempts 0, 1 and 2 all ran) and the failure surfaces
as a NetworkError, not as a ConcurrencyError. -/
theorem publishToIpns_conflict_retried_as_network :
    publishToIpns conflictPublishOp =
      .error ⟨.network,
        "IPFS operation failed after 3 attempts: revision conflict at attempt 2"⟩ ∧
    ErrKind.network ≠ ErrKind.concurrency := by
  constructor
  · rfl
  · decide

/-- Claim C2 (amended): a conflicting-revision publish failure is handled
like any other non-authentication failure — withRetry retries it up to the
bounded attempt count and the terminal failure surfaces as a NetworkError;
no ConcurrencyError is ever raised. -/
theorem publishToIpns_error_kind (op : Nat → Except Err Revision)
    (hop : ∀ n e, op n = .error e → msgHasMissingSpace e.message = false)
    (e : Err) (he : publishToIpns op = .error e) :
    e.kind = .network := by
  cases h0 : op 0 with
  | ok v => simp [publishToIpns, withRetry, withRetryGo, h0] at he
  | error e0 =>
    have hm0 := hop 0 e0 h0
    cases h1 : op 1 with
    | ok v => simp [publishToIpns, withRetry, withRetryGo, h0, hm0, h1] at he
    | error e1 =>
      have hm1 := hop 1 e1 h1
      cases h2 : op 2 with
      | ok v =>
        simp [publishToIpns, withRetry, withRetryGo, h0, hm0, h1, hm1, h2] at he
      | error e2 =>
        have hm2 := hop 2 e2 h2
        simp [publishToIpns, withRetry, withRetryGo, h0, hm0, h1, hm1, h2, hm2] at he
        subst he
        rfl

/-- Witness for publishToIpns_error_kind at a concrete always-conflicting
publish operation. -/
theorem publishToIpns_error_kind_witness :
    (Err.mk ErrKind.network "IPFS operation failed after 3 attempts: revision conflict").kind
      = ErrKind.network :=
  publishToIpns_error_kind (fun _ => .error ⟨.generic, "revision conflict"⟩)
    (fun _ e h => by
      injection h with h2
      subst h2
      decide)
    ⟨ErrKind.network, "IPFS operation failed after 3 attempts: revision conflict"⟩ rfl

-- ───────────────────────── C5 ──────────────────────────────────────────────

/-- Claim C5: when the content store reports 'missing current space' on the
first attempt, uploadMemory does not retry (the result is already fixed by
attempt 0 alone, whatever later attempts would do), returns the
deterministic hash-derived mock address of the payload, and persists the
payload in the local cache under that address; re-uploading identical
content in any such environment yields the same address. -/
theorem uploadMemory_missing_space_fallback (store : Nat → Except Err String)
    (memory : Json) (cache : Cache) (e : Err)
    (h0 : store 0 = .error e) (hm : msgHasMissingSpace e.message = true) :
    uploadMemory store memory cache =
      (.ok (mkMockCid memory), cacheInsert cache (mkMockCid memory) memory)
  ∧ cacheLookup (cacheInsert cache (mkMockCid memory) memory) (mkMockCid memory) =
      some memory
  ∧ (∀ store2 : Nat → Except Err String, store2 0 = store 0 →
      uploadMemory store2 memory cache = uploadMemory store memory cache)
  ∧ (∀ (store3 : Nat → Except Err String) (cache3 : Cache) (e3 : Err),
      store3 0 = .error e3 → msgHasMissingSpace e3.message = true →
      (uploadMemory store3 memory cache3).1 = .ok (mkMockCid memory)) := by
  refine ⟨?_, ?_, ?_, ?_⟩
  · simp [uploadMemory, withRetry, withRetryGo, h0, hm]
  · simp [cacheLookup, cacheInsert]
  · intro store2 h2
    rw [h0] at h2
    simp [uploadMemory, withRetry, withRetryGo, h0, h2, hm]
  · intro store3 cache3 e3 h3 hm3
    simp [uploadMemory, withRetry, withRetryGo, h3, hm3]

/-- Witness for uploadMemory_missing_space_fallback at a concrete failing
store and payload. -/
theorem uploadMemory_missing_space_fallback_witness :
    uploadMemory (fun _ => .error ⟨.generic, "failed: missing current space"⟩)
      (Json.str "hello") [] =
      (.ok (mkMockCid (Json.str "hello")),
        cacheInsert [] (mkMockCid (Json.str "hello")) (Json.str "hello")) :=
  (uploadMemory_missing_space_fallback
    (fun _ => .error ⟨.generic, "failed: missing current space"⟩)
    (Json.str "hello") [] ⟨.generic, "failed: missing current space"⟩
    rfl (by decide)).1

-- ───────────────────────── C8 ──────────────────────────────────────────────

/-- Helper: with the default three attempts, an error escaping withRetry
whose per-attempt failures never mention 'missing current space' is the
terminal NetworkError. -/
theorem withRetry3_error_network {α : Type} (op : Nat → Except Err α)
    (hop : ∀ n e, op n = .error e → msgHasMissingSpace e.message = false)
    (e : Err) (he : withRetry op 3 = .error e) :
    e.kind = .network := by
  cases h0 : op 0 with
  | ok v => simp [withRetry, withRetryGo, h0] at he
  | error e0 =>
    have hm0 := hop 0 e0 h0
    cases h1 : op 1 with
    | ok v => simp [withRetry, withRetryGo, h0, hm0, h1] at he
    | error e1 =>
      have hm1 := hop 1 e1 h1
      cases h2 : op 2 with
      | ok v => simp [withRetry, withRetryGo, h0, hm0, h1, hm1, h2] at he
      | error e2 =>
        have hm2 := hop 2 e2 h2
        simp [withRetry, withRetryGo, h0, hm0, h1, hm1, h2, hm2] at he
        subst he
        rfl

/-- Helper: every error escaping uploadMemory is a NetworkError (the
missing-space condition is recovered locally, a NetworkError is rethrown,
anything else is wrapped in a NetworkError). -/
theorem uploadMemory_error_network (store : Nat → Except Err String) (memory : Json)
    (cache : Cache) (e : Err) (cache2 : Cache)
    (he : uploadMemory store memory cache = (.error e, cache2)) :
    e.kind = .network := by
  unfold uploadMemory at he
  cases hw : withRetry store 3 with
  | ok cid => simp [hw] at he
  | error e0 =>
    rw [hw] at he
    by_cases hm : msgHasMissingSpace e0.message
    · simp [hm] at he
    · by_cases hk : e0.kind = ErrKind.network
      · simp [hm, hk] at he
        rw [← he.1, hk]
      · simp [hm, hk] at he
        rw [← he.1]

/-- Helper: every error escaping storePublicMemory is a ValidationError
(schema failure) or a StorageError (wrapped upload failure). -/
theorem storePublicMemory_error_kind (store : Nat → Except Err String)
    (schema : Option (Json → Bool)) (nowIso : String) (st : RState) (context : Json)
    (e : Err) (he : storePublicMemory store schema nowIso st context = .error e) :
    e.kind = .validation ∨ e.kind = .storage := by
  have hrest : ∀ e2 : Err,
      storePublicMemoryRest store nowIso st context = .error e2 →
      e2.kind = .validation ∨ e2.kind = .storage := by
    intro e2 h2
    unfold storePublicMemoryRest at h2
    cases hu : uploadMemory store (wrapContext st.did nowIso context) st.cache with
    | mk r cache2 =>
      rw [hu] at h2
      cases r with
      | ok cid => simp at h2
      | error e0 =>
        by_cases hk : e0.kind = ErrKind.validation
        · simp [hk] at h2
          subst h2
          exact Or.inl hk
        · simp [hk] at h2
          rw [← h2]
          exact Or.inr rfl
  cases schema with
  | none =>
    simp only [storePublicMemory] at he
    exact hrest e he
  | some p =>
    simp only [storePublicMemory] at he
    by_cases hp : p context
    · rw [if_pos hp] at he
      exact hrest e he
    · rw [if_neg hp] at he
      injection he with h3
      rw [← h3]
      exact Or.inl rfl

/-- Helper: every error escaping the store-then-publish tail of
updateMemoryStream is a ValidationError, StorageError or NetworkError. -/
theorem updateMemoryStreamTail_error_kind (store : Nat → Except Err String)
    (publishOp : Nat → Except Err Revision) (nowIso : String) (st1 : RState)
    (ctx : Json)
    (hpub : ∀ n e, publishOp n = .error e → msgHasMissingSpace e.message = false)
    (e : Err)
    (he : updateMemoryStreamTail store publishOp nowIso st1 ctx = .error e) :
    e.kind = .validation ∨ e.kind = .storage ∨ e.kind = .network := by
  unfold updateMemoryStreamTail at he
  cases hs : storePublicMemory store none nowIso st1 ctx with
  | error e0 =>
    rw [hs] at he
    injection he with h3
    subst h3
    rcases storePublicMemory_error_kind store none nowIso st1 ctx e0 hs with h | h
    · exact Or.inl h
    · exact Or.inr (Or.inl h)
  | ok p =>
    rcases p with ⟨newCid, st2⟩
    rw [hs] at he
    simp only at he
    cases hp : publishToIpns publishOp with
    | error e1 =>
      rw [hp] at he
      injection he with h3
      subst h3
      right; right
      rw [publishToIpns] at hp
      exact withRetry3_error_network publishOp hpub e1 hp
    | ok rev =>
      rw [hp] at he
      simp at he

/-- Claim C8 (amended): every failure surfacing from updateMemoryStream is
typed as a ValidationError, StorageError or NetworkError — except the
untyped plain Error thrown when no stream was started, which is the only
generic failure (given a publish operation whose failures do not carry the
locally recovered 'missing current space' marker). -/
theorem updateMemoryStream_error_typed (store : Nat → Except Err String)
    (publishOp : Nat → Except Err Revision) (latest : Option Revision)
    (nowIso : String) (st : RState) (ctx : Json)
    (hpub : ∀ n e, publishOp n = .error e → msgHasMissingSpace e.message = false)
    (e : Err)
    (he : updateMemoryStream store publishOp latest nowIso st ctx = .error e) :
    (e.kind = .generic ↔ st.ipnsName = none) ∧
    (e.kind = .generic ∨ e.kind = .validation ∨ e.kind = .storage ∨ e.kind = .network) := by
  cases hn : st.ipnsName with
  | none =>
    simp [updateMemoryStream, hn] at he
    rw [← he]
    simp
  | some nm =>
    have htail : e.kind = .validation ∨ e.kind = .storage ∨ e.kind = .network := by
      cases hlat : latest with
      | none =>
        simp only [updateMemoryStream, hn, hlat] at he
        exact updateMemoryStreamTail_error_kind store publishOp nowIso st ctx hpub e he
      | some r =>
        simp only [updateMemoryStream, hn, hlat] at he
        exact updateMemoryStreamTail_error_kind store publishOp nowIso
          _ ctx hpub e he
    have hng : e.kind ≠ .generic := by
      rcases htail with h | h | h <;> simp [h]
    constructor
    · simp [hn, hng]
    · rcases htail with h | h | h <;> simp [h]

/-- A runtime state in which no memory stream has been started. -/
def noStreamState : RState :=
  ⟨"did:key:zMe", [], none, none, []⟩

/-- Counterexample to claim C8 as stated: updateMemoryStream called before
startMemoryStream surfaces a plain untyped Error, which is none of the
typed failure kinds of errors.ts. -/
theorem updateMemoryStream_untyped_escape :
    updateMemoryStream (fun _ => .ok "bafyCid") (fun _ => .ok ⟨0, "/ipfs/x"⟩)
      none "2026-02-26T00:00:00Z" noStreamState Json.null =
      .error ⟨.generic,
        "Cannot update memory stream: No stream started. Call startMemoryStream() first."⟩
    ∧ ErrKind.generic ∉ [ErrKind.validation, ErrKind.authentication,
        ErrKind.network, ErrKind.storage, ErrKind.concurrency] := by
  constructor
  · rfl
  · decide

/-- A runtime state with an already started stream. -/
def withStreamState : RState :=
  ⟨"did:key:zMe", [], some "k51qzi5uqu5d", none, []⟩

/-- Witness for updateMemoryStream_error_typed: with a stream started and
an always-failing store, the surfaced failure is a typed StorageError. -/
theorem updateMemoryStream_error_typed_witness :
    ((Err.mk ErrKind.storage
        "Failed to store public memory: IPFS operation failed after 3 attempts: boom").kind
        = ErrKind.generic ↔ withStreamState.ipnsName = none)
    ∧ ((Err.mk ErrKind.storage
        "Failed to store public memory: IPFS operation failed after 3 attempts: boom").kind
          = ErrKind.generic ∨
       (Err.mk ErrKind.storage
        "Failed to store public memory: IPFS operation failed after 3 attempts: boom").kind
          = ErrKind.validation ∨
       (Err.mk ErrKind.storage
        "Failed to store public memory: IPFS operation failed after 3 attempts: boom").kind
          = ErrKind.storage ∨
       (Err.mk ErrKind.storage
        "Failed to store public memory: IPFS operation failed after 3 attempts: boom").kind
          = ErrKind.network) :=
  updateMemoryStream_error_typed (fun _ => .error ⟨.generic, "boom"⟩)
    (fun _ => .ok ⟨0, "/ipfs/x"⟩) none "2026-02-26T00:00:00Z" withStreamState Json.null
    (fun _ e h => by
      injection h)
    ⟨ErrKind.storage,
      "Failed to store public memory: IPFS operation failed after 3 attempts: boom"⟩
    rfl

-- ───────────────────────── C10 ─────────────────────────────────────────────

/-- The wrapper is strictly larger than the wrapped context. -/
theorem jsize_lt_wrapContext (did ts : String) (c : Json) :
    jsize c < jsize (wrapContext did ts c) := by
  simp [wrapContext, jsize, jsizeObj]
  omega

/-- The wrapper record is never the wrapped context itself. -/
theorem wrapContext_ne (did ts : String) (c : Json) : wrapContext did ts c ≠ c := by
  intro h
  have h2 := congrArg jsize h
  have h3 := jsize_lt_wrapContext did ts c
  omega

/-- Claim C10: storePublicMemory stores not the context c itself but the
wrapper record with agent_id, timestamp and context fields; retrieving the
returned address yields that wrapper, which differs from c, so retrieve
after store is not the identity on the payload.  (Exercised through the
local fallback store, where the written content is observable.) -/
theorem storePublicMemory_wraps_context (store : Nat → Except Err String)
    (nowIso : String) (st : RState) (ctx : Json) (e : Err) (now : Int)
    (h0 : store 0 = .error e) (hm : msgHasMissingSpace e.message = true) :
    ∃ cid st2, storePublicMemory store none nowIso st ctx = .ok (cid, st2) ∧
      retrievePublicMemory (cacheLookup st2.cache) cid none now =
        (.ok (wrapContext st.did nowIso ctx), 1) ∧
      wrapContext st.did nowIso ctx ≠ ctx := by
  refine ⟨mkMockCid (wrapContext st.did nowIso ctx),
    { st with
        cache := cacheInsert st.cache (mkMockCid (wrapContext st.did nowIso ctx))
          (wrapContext st.did nowIso ctx)
        memoryCids := st.memoryCids ++ [mkMockCid (wrapContext st.did nowIso ctx)] },
    ?_, ?_, wrapContext_ne st.did nowIso ctx⟩
  · simp [storePublicMemory, storePublicMemoryRest, uploadMemory,
      withRetry, withRetryGo, h0, hm]
  · simp [retrievePublicMemory, retrieveFetchStep, cacheLookup, cacheInsert]

/-- Witness for storePublicMemory_wraps_context at a concrete state,
payload and failing store. -/
theorem storePublicMemory_wraps_context_witness :
    ∃ cid st2,
      storePublicMemory (fun _ => .error ⟨.generic, "missing current space"⟩)
        none "2026-02-26T00:00:00Z" noStreamState (Json.str "note") = .ok (cid, st2) ∧
      retrievePublicMemory (cacheLookup st2.cache) cid none 0 =
        (.ok (wrapContext noStreamState.did "2026-02-26T00:00:00Z" (Json.str "note")), 1) ∧
      wrapContext noStreamState.did "2026-02-26T00:00:00Z" (Json.str "note") ≠
        Json.str "note" :=
  storePublicMemory_wraps_context (fun _ => .error ⟨.generic, "missing current space"⟩)
    "2026-02-26T00:00:00Z" noStreamState (Json.str "note")
    ⟨.generic, "missing current space"⟩ 0 rfl (by decide)
